import Mathlib

/-!
Shallow embedding of the fastapi-intake-backend chat service
(src/app/routers/chat.py, src/app/routers/auth.py, src/app/models.py,
src/app/config.py, src/app/schemas/chat.py).

Modelling conventions:
* Timestamps are natural numbers drawn from a logical clock stored in the
  database state; each call to `datetime.utcnow()` returns the clock value
  and advances it (real time never decreases between successive calls).
* The SQL store is a record of lists kept in insertion (rowid) order;
  `session.exec(...).first()` is `(List.filter ...).head?` and an
  `ORDER BY created_at DESC` query is a stable merge sort by descending
  creation time (ties keep insertion order).
* `session.commit` / `session.refresh` assign identifiers; here identifiers
  are assigned eagerly from per-table counters, which is observationally the
  same for a sequential request.
* The Anthropic client is `Option ClaudeClient`: `none` models the
  unconfigured service (`claude_client = None`), and a configured client is
  a function from (system prompt, messages) to an outcome, where
  `ClaudeResult.error e` models `messages.create` raising an exception whose
  `str` is `e`.
* Raising `HTTPException` is the `Except.error` branch; stateful endpoints
  return the (possibly updated) database alongside the result, and an error
  leaves the database exactly as it was (the handlers raise before any write).
-/

/-- models.py `User`. -/
structure User where
  id : Nat
  email : String
  hashed_password : String
  is_active : Bool
  created_at : Nat
deriving DecidableEq, Repr

/-- models.py `UserProfile`. -/
structure UserProfile where
  id : Nat
  user_id : Nat
  display_name : Option String
  company_name : Option String
  phone : Option String
  preferences : Option String
  notes : Option String
  updated_at : Nat
deriving DecidableEq, Repr

/-- models.py `Conversation`. -/
structure Conversation where
  id : Nat
  user_id : Nat
  title : Option String
  created_at : Nat
  updated_at : Nat
deriving DecidableEq, Repr

/-- models.py `Message`. -/
structure Message where
  id : Nat
  conversation_id : Nat
  role : String
  content : String
  created_at : Nat
deriving DecidableEq, Repr

/-- fastapi `HTTPException` (status code and detail). -/
structure HTTPException where
  status_code : Nat
  detail : String
deriving DecidableEq, Repr

def HTTP_400_BAD_REQUEST : Nat := 400
def HTTP_401_UNAUTHORIZED : Nat := 401
def HTTP_403_FORBIDDEN : Nat := 403
def HTTP_404_NOT_FOUND : Nat := 404

/-- config.py `settings.MAX_CONVERSATION_HISTORY` default. -/
def MAX_CONVERSATION_HISTORY : Nat := 20

/-- The relational store plus id counters and the logical utcnow clock. -/
structure DB where
  users : List User
  profiles : List UserProfile
  conversations : List Conversation
  messages : List Message
  nextProfileId : Nat
  nextConversationId : Nat
  nextMessageId : Nat
  clock : Nat
deriving DecidableEq, Repr

/-- One call to `datetime.utcnow()`: returns the current time, advances it. -/
def DB.utcnow (db : DB) : Nat × DB :=
  (db.clock, { db with clock := db.clock + 1 })

/-- Python truthiness of an `Optional[str]`: `None` and `""` are falsy. -/
def pyTruthy : Option String → Bool
  | none => false
  | some s => !(s == "")

/-- Python `opt or default` on an `Optional[str]`. -/
def pyOr (opt : Option String) (default : String) : String :=
  match opt with
  | none => default
  | some s => if s == "" then default else s

/-- chat.py `build_system_prompt`: the fixed base instruction string. -/
def base_prompt : String :=
  "You are a helpful assistant for Frederick Fire and Safety. \nYou help customers inquire about fire extinguishers and safety equipment.\nYou remember previous conversations and user preferences.\nBe friendly, helpful, and professional."

/-- chat.py `build_system_prompt`: the `context_parts` list accumulated by
the five truthiness-guarded appends, in source order. -/
def context_parts (profile : UserProfile) : List String :=
  (if pyTruthy profile.display_name then ["Customer name: " ++ profile.display_name.getD ""] else []) ++
  (if pyTruthy profile.company_name then ["Company: " ++ profile.company_name.getD ""] else []) ++
  (if pyTruthy profile.phone then ["Phone: " ++ profile.phone.getD ""] else []) ++
  (if pyTruthy profile.preferences then ["Preferences: " ++ profile.preferences.getD ""] else []) ++
  (if pyTruthy profile.notes then ["Notes: " ++ profile.notes.getD ""] else [])

/-- chat.py `build_system_prompt(user, profile)`. -/
def build_system_prompt (_user : User) (profile : Option UserProfile) : String :=
  match profile with
  | none => base_prompt
  | some p =>
    let parts := context_parts p
    if parts.isEmpty then base_prompt
    else base_prompt ++ "\n\nKnown information about this customer:\n" ++ String.intercalate "\n" parts

/-- `ORDER BY Message.created_at DESC` comparison (a stable sort keeps
insertion order among equal timestamps). -/
def msgLeDesc (a b : Message) : Bool := b.created_at ≤ a.created_at

/-- The query inside chat.py `get_conversation_history` before the LIMIT:
the conversation's messages ordered by creation time descending. -/
def conversationMessagesDesc (db : DB) (conversation_id : Nat) : List Message :=
  (db.messages.filter (fun m => m.conversation_id == conversation_id)).mergeSort msgLeDesc

/-- chat.py `get_conversation_history(session, conversation_id, limit=None)`:
`limit = limit or settings.MAX_CONVERSATION_HISTORY` (so `None` and `0` both
become the configured maximum), take the most recent `limit` messages,
reverse to chronological order, and format as role/content pairs. -/
def get_conversation_history (db : DB) (conversation_id : Nat) (limit : Option Nat) : List (String × String) :=
  let lim := match limit with
    | none => MAX_CONVERSATION_HISTORY
    | some l => if l == 0 then MAX_CONVERSATION_HISTORY else l
  (((conversationMessagesDesc db conversation_id).take lim).reverse).map
    (fun m => (m.role, m.content))

/-- Outcome of one `claude_client.messages.create(...)` call followed by
`response.content[0].text`: either the generated text, or an exception
whose `str(e)` is the payload. -/
inductive ClaudeResult where
  | success (text : String)
  | error (e : String)
deriving DecidableEq, Repr

/-- A configured Anthropic client: what `messages.create` does, as a function
of the system prompt and the messages argument. -/
structure ClaudeClient where
  create : String → List (String × String) → ClaudeResult

/-- chat.py `call_claude(system_prompt, messages, new_message)`: demo reply
when unconfigured; otherwise append the new user message and call the API,
catching every exception into an apologetic reply. Total — it never raises. -/
def call_claude (claude_client : Option ClaudeClient) (system_prompt : String)
    (messages : List (String × String)) (new_message : String) : String :=
  match claude_client with
  | none =>
    "[Demo mode - Claude API not configured] I received your message: \x27" ++ new_message ++
      "\x27. To enable real responses, set your ANTHROPIC_API_KEY."
  | some client =>
    let full_messages := messages ++ [("user", new_message)]
    match client.create system_prompt full_messages with
    | .success t => t
    | .error e => "I apologize, but I encountered an error: " ++ e ++ ". Please try again."

/-- schemas/chat.py `MessageRead`. -/
structure MessageRead where
  id : Nat
  role : String
  content : String
  created_at : Nat
deriving DecidableEq, Repr

/-- `MessageRead.model_validate` on an ORM `Message`. -/
def MessageRead.model_validate (m : Message) : MessageRead :=
  { id := m.id, role := m.role, content := m.content, created_at := m.created_at }

/-- schemas/chat.py `ConversationRead`. -/
structure ConversationRead where
  id : Nat
  title : Option String
  created_at : Nat
  updated_at : Nat
deriving DecidableEq, Repr

/-- schemas/chat.py `ConversationDetail`. -/
structure ConversationDetail where
  id : Nat
  title : Option String
  created_at : Nat
  updated_at : Nat
  messages : List MessageRead
deriving DecidableEq, Repr

/-- schemas/chat.py `ChatResponse`. -/
structure ChatResponse where
  conversation_id : Nat
  user_message : MessageRead
  assistant_message : MessageRead
deriving DecidableEq, Repr

/-- schemas/chat.py `UserProfileRead`. -/
structure UserProfileRead where
  id : Nat
  display_name : Option String
  company_name : Option String
  phone : Option String
  preferences : Option String
  notes : Option String
  updated_at : Nat
deriving DecidableEq, Repr

def UserProfileRead.model_validate (p : UserProfile) : UserProfileRead :=
  { id := p.id, display_name := p.display_name, company_name := p.company_name,
    phone := p.phone, preferences := p.preferences, notes := p.notes,
    updated_at := p.updated_at }

/-- The owner-scoped conversation lookup shared by the conversation
endpoints: `select(Conversation).where(id == conversation_id,
user_id == current_user.id)` followed by `.first()`. -/
def findOwnedConversation (db : DB) (conversation_id : Nat) (current_user : User) : Option Conversation :=
  (db.conversations.filter
    (fun c => c.id == conversation_id && c.user_id == current_user.id)).head?

/-- The uniform error raised when the lookup fails. -/
def conversationNotFound : HTTPException :=
  { status_code := HTTP_404_NOT_FOUND, detail := "Conversation not found" }

/-- chat.py `create_conversation`: stores `title=conv_in.title or
"New Conversation"` (so `None` and `""` both become the default); the two
timestamp defaults each draw from the clock. -/
def create_conversation (db : DB) (conv_in_title : Option String) (current_user : User) :
    ConversationRead × DB :=
  let title := pyOr conv_in_title "New Conversation"
  let (t_created, db) := db.utcnow
  let (t_updated, db) := db.utcnow
  let conversation : Conversation :=
    { id := db.nextConversationId, user_id := current_user.id, title := some title,
      created_at := t_created, updated_at := t_updated }
  let db := { db with conversations := db.conversations ++ [conversation],
                      nextConversationId := db.nextConversationId + 1 }
  ({ id := conversation.id, title := conversation.title,
     created_at := conversation.created_at, updated_at := conversation.updated_at }, db)

/-- `ORDER BY Message.created_at ASC` comparison. -/
def msgLeAsc (a b : Message) : Bool := a.created_at ≤ b.created_at

/-- chat.py `get_conversation`: owner-scoped fetch of a conversation and all
its messages in ascending creation order; pure read. -/
def get_conversation (db : DB) (conversation_id : Nat) (current_user : User) :
    Except HTTPException ConversationDetail :=
  match findOwnedConversation db conversation_id current_user with
  | none => .error conversationNotFound
  | some conversation =>
    let messages :=
      (db.messages.filter (fun m => m.conversation_id == conversation_id)).mergeSort msgLeAsc
    .ok { id := conversation.id, title := conversation.title,
          created_at := conversation.created_at, updated_at := conversation.updated_at,
          messages := messages.map MessageRead.model_validate }

/-- chat.py `delete_conversation`: owner-scoped; deletes the conversation's
messages first, then the conversation. On error nothing is written. -/
def delete_conversation (db : DB) (conversation_id : Nat) (current_user : User) :
    Except HTTPException Unit × DB :=
  match findOwnedConversation db conversation_id current_user with
  | none => (.error conversationNotFound, db)
  | some conversation =>
    let db := { db with
      messages := db.messages.filter (fun m => !(m.conversation_id == conversation_id)) }
    let db := { db with
      conversations := db.conversations.filter (fun c => !(c.id == conversation.id)) }
    (.ok (), db)

/-- chat.py `send_message`: validate ownership, fetch profile, build the
system prompt, fetch history (before the new message is stored), persist the
user message, call Claude (which never raises), persist the assistant
message and bump the conversation timestamp, and return both messages. -/
def send_message (claude_client : Option ClaudeClient) (db : DB) (conversation_id : Nat)
    (content : String) (current_user : User) : Except HTTPException ChatResponse × DB :=
  match findOwnedConversation db conversation_id current_user with
  | none => (.error conversationNotFound, db)
  | some _conversation =>
    let profile := (db.profiles.filter (fun p => p.user_id == current_user.id)).head?
    let system_prompt := build_system_prompt current_user profile
    let history := get_conversation_history db conversation_id none
    let (t_user, db) := db.utcnow
    let user_message : Message :=
      { id := db.nextMessageId, conversation_id := conversation_id, role := "user",
        content := content, created_at := t_user }
    let db := { db with messages := db.messages ++ [user_message],
                        nextMessageId := db.nextMessageId + 1 }
    let assistant_response := call_claude claude_client system_prompt history content
    let (t_assistant, db) := db.utcnow
    let assistant_message : Message :=
      { id := db.nextMessageId, conversation_id := conversation_id, role := "assistant",
        content := assistant_response, created_at := t_assistant }
    let db := { db with messages := db.messages ++ [assistant_message],
                        nextMessageId := db.nextMessageId + 1 }
    let (t_conv, db) := db.utcnow
    let bumped := db.conversations.map
      (fun c => if c.id == conversation_id then { c with updated_at := t_conv } else c)
    let db := { db with conversations := bumped }
    (.ok { conversation_id := conversation_id,
           user_message := MessageRead.model_validate user_message,
           assistant_message := MessageRead.model_validate assistant_message }, db)

/-- Python truthiness of the `Optional[int]` query parameter
`conversation_id`: `None` and `0` are falsy. -/
def pyTruthyNat : Option Nat → Bool
  | none => false
  | some n => !(n == 0)

/-- chat.py `quick_message`: `if conversation_id:` reuse it (owner-scoped,
404 if absent), else create a conversation titled by the first 50 characters
of the content (with "..." appended when longer), then delegate to
`send_message`. -/
def quick_message (claude_client : Option ClaudeClient) (db : DB)
    (conversation_id : Option Nat) (content : String) (current_user : User) :
    Except HTTPException ChatResponse × DB :=
  if pyTruthyNat conversation_id then
    match findOwnedConversation db (conversation_id.getD 0) current_user with
    | none => (.error conversationNotFound, db)
    | some conversation => send_message claude_client db conversation.id content current_user
  else
    let title := if content.length > 50 then content.take 50 ++ "..." else content
    let (t_created, db) := db.utcnow
    let (t_updated, db) := db.utcnow
    let conversation : Conversation :=
      { id := db.nextConversationId, user_id := current_user.id, title := some title,
        created_at := t_created, updated_at := t_updated }
    let db := { db with conversations := db.conversations ++ [conversation],
                        nextConversationId := db.nextConversationId + 1 }
    send_message claude_client db conversation.id content current_user

/-- schemas/chat.py `UserProfileUpdate` as sent in a PATCH body: the outer
`Option` records whether the field was explicitly present in the payload
(pydantic `exclude_unset`), the inner one its (nullable) value. -/
structure UserProfileUpdate where
  display_name : Option (Option String) := none
  company_name : Option (Option String) := none
  phone : Option (Option String) := none
  preferences : Option (Option String) := none
  notes : Option (Option String) := none
deriving DecidableEq, Repr

/-- The `for key, value in update_data.items(): setattr(profile, key, value)`
loop over `profile_in.model_dump(exclude_unset=True)`: fields present in the
payload overwrite, omitted fields are untouched. -/
def applySetFields (profile : UserProfile) (profile_in : UserProfileUpdate) : UserProfile :=
  { profile with
    display_name := profile_in.display_name.getD profile.display_name,
    company_name := profile_in.company_name.getD profile.company_name,
    phone := profile_in.phone.getD profile.phone,
    preferences := profile_in.preferences.getD profile.preferences,
    notes := profile_in.notes.getD profile.notes }

/-- chat.py `update_profile`: fetch (or freshly build) the caller's profile,
apply only the explicitly-present fields, always reset `updated_at` to now,
and store. -/
def update_profile (db : DB) (current_user : User) (profile_in : UserProfileUpdate) :
    UserProfileRead × DB :=
  match (db.profiles.filter (fun p => p.user_id == current_user.id)).head? with
  | some profile =>
    let profile := applySetFields profile profile_in
    let (t, db) := db.utcnow
    let profile := { profile with updated_at := t }
    let stored := db.profiles.map (fun q => if q.id == profile.id then profile else q)
    let db := { db with profiles := stored }
    (UserProfileRead.model_validate profile, db)
  | none =>
    let (t0, db) := db.utcnow
    let fresh : UserProfile :=
      { id := db.nextProfileId, user_id := current_user.id, display_name := none,
        company_name := none, phone := none, preferences := none, notes := none,
        updated_at := t0 }
    let profile := applySetFields fresh profile_in
    let (t, db) := db.utcnow
    let profile := { profile with updated_at := t }
    let db := { db with profiles := db.profiles ++ [profile],
                        nextProfileId := db.nextProfileId + 1 }
    (UserProfileRead.model_validate profile, db)

/-- schemas/auth.py `Token`. -/
structure Token where
  access_token : String
deriving DecidableEq, Repr

/-- Modelled from the spec: password hashing lives in app/auth.py, which is
not in the source tree; the spec treats it as standard commodity hashing, so
it is modelled as an injective tagging of the password. -/
def get_password_hash (password : String) : String := "bcrypt-hash:" ++ password

/-- Modelled from the spec: `verify_password(plain, hashed)` from app/auth.py
(not in the source tree) checks the plain password against the stored hash. -/
def verify_password (plain hashed : String) : Bool := get_password_hash plain == hashed

/-- Modelled from the spec: `create_access_token` from app/auth.py (not in
the source tree) mints an opaque bearer token for the subject email. -/
def create_access_token (sub : String) : String := "jwt:" ++ sub

/-- auth.py `login`: unknown email or wrong password raise 401 Unauthorized;
a disabled account with correct credentials raises 403 Forbidden; otherwise
a token is returned. -/
def login (db : DB) (email password : String) : Except HTTPException Token :=
  match (db.users.filter (fun u => u.email == email)).head? with
  | none => .error { status_code := HTTP_401_UNAUTHORIZED, detail := "Incorrect email or password." }
  | some user =>
    if !(verify_password password user.hashed_password) then
      .error { status_code := HTTP_401_UNAUTHORIZED, detail := "Incorrect email or password." }
    else if !user.is_active then
      .error { status_code := HTTP_403_FORBIDDEN, detail := "User account is disabled." }
    else
      .ok { access_token := create_access_token user.email }

/-! Concrete sample data used by witnesses and counterexamples. -/

def sampleUser : User :=
  { id := 1, email := "a@x.com", hashed_password := get_password_hash "pw1",
    is_active := true, created_at := 0 }

def sampleProfile : UserProfile :=
  { id := 1, user_id := 1, display_name := some "Ann", company_name := none,
    phone := some "555", preferences := none, notes := none, updated_at := 0 }

def sampleConversation : Conversation :=
  { id := 1, user_id := 1, title := some "T", created_at := 0, updated_at := 3 }

def sampleMessages : List Message :=
  [{ id := 1, conversation_id := 1, role := "user", content := "m1", created_at := 1 },
   { id := 2, conversation_id := 1, role := "assistant", content := "m2", created_at := 2 },
   { id := 3, conversation_id := 1, role := "user", content := "m3", created_at := 3 }]

def sampleDB : DB :=
  { users := [sampleUser], profiles := [sampleProfile],
    conversations := [sampleConversation], messages := sampleMessages,
    nextProfileId := 2, nextConversationId := 2, nextMessageId := 4, clock := 4 }

def disabledUser : User :=
  { id := 2, email := "d@x.com", hashed_password := get_password_hash "pw2",
    is_active := false, created_at := 0 }

def disabledDB : DB :=
  { users := [disabledUser], profiles := [], conversations := [], messages := [],
    nextProfileId := 1, nextConversationId := 1, nextMessageId := 1, clock := 0 }

def errClient : ClaudeClient := { create := fun _ _ => .error "boom" }

def emptyConvDB : DB :=
  { users := [sampleUser], profiles := [], conversations := [], messages := [],
    nextProfileId := 1, nextConversationId := 1, nextMessageId := 1, clock := 0 }

def longContent : String :=
  "abcdefghijabcdefghijabcdefghijabcdefghijabcdefghijabcdefghij"

/-- The messages underlying `get_conversation_history`: the window of the
most recent `lim` messages, put back into chronological order. -/
def historyMessages (db : DB) (conversation_id : Nat) (lim : Nat) : List Message :=
  ((conversationMessagesDesc db conversation_id).take lim).reverse

/-! Helper lemmas shared by the claim theorems. -/

/-- The assistant text produced inside `send_message`: `call_claude` applied
to the system prompt and the history, both computed on the pre-call state. -/
def sendAssistantText (claude_client : Option ClaudeClient) (db : DB) (conversation_id : Nat)
    (content : String) (current_user : User) : String :=
  call_claude claude_client
    (build_system_prompt current_user
      ((db.profiles.filter (fun p => p.user_id == current_user.id)).head?))
    (get_conversation_history db conversation_id none) content

theorem send_message_error_unfold (claude_client : Option ClaudeClient) (db : DB)
    (conversation_id : Nat) (content : String) (current_user : User)
    (h : findOwnedConversation db conversation_id current_user = none) :
    send_message claude_client db conversation_id content current_user =
      (.error conversationNotFound, db) := by
  simp [send_message, h]

theorem send_message_ok_unfold (claude_client : Option ClaudeClient) (db : DB)
    (conversation_id : Nat) (content : String) (current_user : User) (c : Conversation)
    (h : findOwnedConversation db conversation_id current_user = some c) :
    send_message claude_client db conversation_id content current_user =
      (.ok { conversation_id := conversation_id,
             user_message :=
               { id := db.nextMessageId, role := "user", content := content,
                 created_at := db.clock },
             assistant_message :=
               { id := db.nextMessageId + 1, role := "assistant",
                 content := sendAssistantText claude_client db conversation_id content current_user,
                 created_at := db.clock + 1 } },
       { db with
          messages := db.messages ++
            [{ id := db.nextMessageId, conversation_id := conversation_id, role := "user",
               content := content, created_at := db.clock },
             { id := db.nextMessageId + 1, conversation_id := conversation_id,
               role := "assistant",
               content := sendAssistantText claude_client db conversation_id content current_user,
               created_at := db.clock + 1 }],
          conversations := db.conversations.map
            (fun c0 => if c0.id == conversation_id then { c0 with updated_at := db.clock + 2 } else c0),
          nextMessageId := db.nextMessageId + 2,
          clock := db.clock + 3 }) := by
  simp [send_message, h, DB.utcnow, sendAssistantText, MessageRead.model_validate]

/-- C9: `build_system_prompt` returns the fixed base instruction string when
the profile is absent or all five profile fields are empty, and otherwise
the base string followed by the labeled known-information block listing
exactly the non-empty fields, one per line, in the fixed order display name,
company, phone, preferences, notes; it is a pure function (no side effects). -/
theorem build_system_prompt_spec (u : User) (profile : Option UserProfile) :
    (profile = none → build_system_prompt u profile = base_prompt) ∧
    (∀ p, profile = some p → context_parts p = [] →
      build_system_prompt u profile = base_prompt) ∧
    (∀ p, profile = some p → context_parts p ≠ [] →
      build_system_prompt u profile =
        base_prompt ++ "\n\nKnown information about this customer:\n" ++
          String.intercalate "\n" (context_parts p)) ∧
    (∀ p : UserProfile, context_parts p =
      ([("Customer name: ", p.display_name), ("Company: ", p.company_name),
        ("Phone: ", p.phone), ("Preferences: ", p.preferences),
        ("Notes: ", p.notes)]).filterMap
        (fun lv => if pyTruthy lv.2 then some (lv.1 ++ lv.2.getD "") else none)) ∧
    (∀ p : UserProfile, (context_parts p = [] ↔
      pyTruthy p.display_name = false ∧ pyTruthy p.company_name = false ∧
      pyTruthy p.phone = false ∧ pyTruthy p.preferences = false ∧
      pyTruthy p.notes = false)) := by
  refine ⟨?_, ?_, ?_, ?_, ?_⟩
  · rintro rfl; rfl
  · rintro p rfl h
    simp [build_system_prompt, h]
  · rintro p rfl h
    simp [build_system_prompt, List.isEmpty_iff, h]
  · intro p
    simp only [List.filterMap_cons, List.filterMap_nil, context_parts]
    split_ifs <;> simp
  · intro p
    simp only [context_parts, List.append_eq_nil]
    split_ifs <;> simp_all

/-- C9 witness: a profile with a display name and a phone yields the base
prompt followed by the known-information block. -/
theorem build_system_prompt_spec_witness :
    build_system_prompt sampleUser (some sampleProfile) =
      base_prompt ++ "\n\nKnown information about this customer:\n" ++
        String.intercalate "\n" (context_parts sampleProfile) :=
  (build_system_prompt_spec sampleUser (some sampleProfile)).2.2.1 sampleProfile rfl
    (by decide)

/-- C10: `create_conversation` stores the supplied title exactly when it is a
non-empty string, and stores "New Conversation" when the title is omitted or
is the empty string. -/
theorem create_conversation_default_title_spec (db : DB) (conv_in_title : Option String)
    (u : User) :
    ((create_conversation db conv_in_title u).2.conversations.map Conversation.title =
      db.conversations.map Conversation.title ++
        [(create_conversation db conv_in_title u).1.title]) ∧
    (∀ s, conv_in_title = some s → s ≠ "" →
      (create_conversation db conv_in_title u).1.title = some s) ∧
    ((conv_in_title = none ∨ conv_in_title = some "") →
      (create_conversation db conv_in_title u).1.title = some "New Conversation") := by
  refine ⟨?_, ?_, ?_⟩
  · simp [create_conversation, DB.utcnow]
  · rintro s rfl hs
    simp [create_conversation, DB.utcnow, pyOr, hs]
  · rintro (rfl | rfl) <;> simp [create_conversation, DB.utcnow, pyOr]

/-- C10 witness: an explicitly supplied empty title is replaced by the
default. -/
theorem create_conversation_default_title_spec_witness :
    (create_conversation sampleDB (some "") sampleUser).1.title = some "New Conversation" :=
  (create_conversation_default_title_spec sampleDB (some "") sampleUser).2.2 (Or.inr rfl)

/-- C3: `call_claude` is total (it never raises): unconfigured yields the
demo reply embedding the new message text, a configured client whose call
errors yields the apologetic reply embedding the error detail, success
yields the generated text; and whatever `call_claude` returns is stored by
`send_message` as an ordinary assistant message. -/
theorem call_claude_total_spec (system_prompt : String) (messages : List (String × String))
    (new_message : String) :
    (call_claude none system_prompt messages new_message =
      "[Demo mode - Claude API not configured] I received your message: \x27" ++ new_message ++
        "\x27. To enable real responses, set your ANTHROPIC_API_KEY.") ∧
    (∀ client : ClaudeClient, ∀ e,
      client.create system_prompt (messages ++ [("user", new_message)]) = .error e →
      call_claude (some client) system_prompt messages new_message =
        "I apologize, but I encountered an error: " ++ e ++ ". Please try again.") ∧
    (∀ client : ClaudeClient, ∀ t,
      client.create system_prompt (messages ++ [("user", new_message)]) = .success t →
      call_claude (some client) system_prompt messages new_message = t) ∧
    (∀ claude_client db cid u c, findOwnedConversation db cid u = some c →
      (send_message claude_client db cid new_message u).2.messages = db.messages ++
        [{ id := db.nextMessageId, conversation_id := cid, role := "user",
           content := new_message, created_at := db.clock },
         { id := db.nextMessageId + 1, conversation_id := cid, role := "assistant",
           content := sendAssistantText claude_client db cid new_message u,
           created_at := db.clock + 1 }]) := by
  refine ⟨rfl, ?_, ?_, ?_⟩
  · intro client e h
    simp [call_claude, h]
  · intro client t h
    simp [call_claude, h]
  · intro claude_client db cid u c h
    rw [send_message_ok_unfold claude_client db cid new_message u c h]

/-- C3 witness: a configured client whose call raises is converted into the
apologetic reply embedding the error detail. -/
theorem call_claude_total_spec_witness :
    call_claude (some errClient) "sp" [] "hi" =
      "I apologize, but I encountered an error: boom. Please try again." :=
  (call_claude_total_spec "sp" [] "hi").2.1 errClient "boom" rfl

/-- C7 counterexample: a disabled account with correct credentials fails with
403 Forbidden ("User account is disabled."), which is a different error kind
from 401 Unauthorized — the claim that a disabled account fails with the
Unauthorized kind is false on the code. -/
theorem login_disabled_forbidden :
    login disabledDB "d@x.com" "pw2" =
      .error { status_code := HTTP_403_FORBIDDEN, detail := "User account is disabled." } ∧
    HTTP_403_FORBIDDEN ≠ HTTP_401_UNAUTHORIZED :=
  ⟨by rfl, by decide⟩

/-- C7 amended: a bad credential (unknown email or wrong password) fails with
401 Unauthorized; a disabled account with correct credentials fails with 403
Forbidden; these are the only failure outcomes, and an active user with
correct credentials receives a token. -/
theorem login_outcomes_spec (db : DB) (email password : String) :
    ((db.users.filter (fun u => u.email == email)).head? = none →
      login db email password =
        .error { status_code := HTTP_401_UNAUTHORIZED, detail := "Incorrect email or password." }) ∧
    (∀ u, (db.users.filter (fun u0 => u0.email == email)).head? = some u →
      (verify_password password u.hashed_password = false →
        login db email password =
          .error { status_code := HTTP_401_UNAUTHORIZED, detail := "Incorrect email or password." }) ∧
      (verify_password password u.hashed_password = true → u.is_active = false →
        login db email password =
          .error { status_code := HTTP_403_FORBIDDEN, detail := "User account is disabled." }) ∧
      (verify_password password u.hashed_password = true → u.is_active = true →
        login db email password = .ok { access_token := create_access_token u.email })) := by
  refine ⟨?_, ?_⟩
  · intro h
    simp [login, h]
  · intro u h
    refine ⟨?_, ?_, ?_⟩
    · intro hv
      simp [login, h, hv]
    · intro hv ha
      simp [login, h, hv, ha]
    · intro hv ha
      simp [login, h, hv, ha]

/-- C7 witness: the active sample user with correct credentials logs in and
receives a token. -/
theorem login_outcomes_spec_witness :
    login sampleDB "a@x.com" "pw1" = .ok { access_token := create_access_token sampleUser.email } :=
  ((login_outcomes_spec sampleDB "a@x.com" "pw1").2 sampleUser (by decide)).2.2
    (by decide) (by decide)

/-- C8: a profile partial update writes only the fields explicitly present in
the payload; omitted fields keep their prior values (a phone-only update
leaves display name, company, preferences and notes unchanged), and
`updated_at` is reset to the current time on every update, even one that
supplies no fields. -/
theorem update_profile_sparse_merge_spec (db : DB) (u : User) (p : UserProfile)
    (h : (db.profiles.filter (fun q => q.user_id == u.id)).head? = some p) :
    (∀ v, (update_profile db u { phone := some v }).1 =
        { id := p.id, display_name := p.display_name, company_name := p.company_name,
          phone := v, preferences := p.preferences, notes := p.notes,
          updated_at := db.clock }) ∧
    (∀ profile_in, (update_profile db u profile_in).1.updated_at = db.clock) ∧
    (∀ profile_in, p.updated_at < db.clock →
      p.updated_at < (update_profile db u profile_in).1.updated_at) ∧
    (∀ profile_in, (update_profile db u profile_in).2.profiles =
      db.profiles.map (fun q => if q.id == p.id then
        { applySetFields p profile_in with updated_at := db.clock } else q)) := by
  refine ⟨?_, ?_, ?_, ?_⟩
  · intro v
    simp [update_profile, h, DB.utcnow, applySetFields, UserProfileRead.model_validate]
  · intro profile_in
    simp [update_profile, h, DB.utcnow, UserProfileRead.model_validate]
  · intro profile_in hlt
    simpa [update_profile, h, DB.utcnow, UserProfileRead.model_validate] using hlt
  · intro profile_in
    simp [update_profile, h, DB.utcnow, applySetFields]

/-- C8 witness: on the sample profile, a phone-only update leaves the other
fields unchanged and advances `updated_at` to the call time. -/
theorem update_profile_sparse_merge_spec_witness :
    (update_profile sampleDB sampleUser { phone := some (some "111") }).1 =
      { id := sampleProfile.id, display_name := sampleProfile.display_name,
        company_name := sampleProfile.company_name, phone := some "111",
        preferences := sampleProfile.preferences, notes := sampleProfile.notes,
        updated_at := sampleDB.clock } :=
  (update_profile_sparse_merge_spec sampleDB sampleUser sampleProfile (by decide)).1
    (some "111")

theorem conversationMessagesDesc_sorted (db : DB) (cid : Nat) :
    (conversationMessagesDesc db cid).Pairwise (fun a b => b.created_at ≤ a.created_at) := by
  have h := @List.sorted_mergeSort Message msgLeDesc
    (fun a b c hab hbc => by
      simp only [msgLeDesc, decide_eq_true_eq] at hab hbc ⊢
      omega)
    (fun a b => by
      simp only [msgLeDesc, Bool.or_eq_true, decide_eq_true_eq]
      omega)
    (db.messages.filter (fun m => m.conversation_id == cid))
  exact h.imp (fun hab => by simpa [msgLeDesc] using hab)

theorem conversationMessagesDesc_perm (db : DB) (cid : Nat) :
    (conversationMessagesDesc db cid).Perm
      (db.messages.filter (fun m => m.conversation_id == cid)) :=
  List.mergeSort_perm _ _

/-- C2: for a positive limit, the history is the role/content image of the
window of most recent messages, has length `min N limit`, is in
non-decreasing creation-time order (oldest first), consists of the
conversation's own messages, dominates every message dropped beyond the
window, and is empty for an empty conversation. -/
theorem get_conversation_history_window_spec (db : DB) (cid : Nat) (l : Nat) (h : 0 < l) :
    (get_conversation_history db cid (some l) =
      (historyMessages db cid l).map (fun m => (m.role, m.content))) ∧
    ((historyMessages db cid l).length =
      min (db.messages.filter (fun m => m.conversation_id == cid)).length l) ∧
    (historyMessages db cid l).Pairwise (fun a b => a.created_at ≤ b.created_at) ∧
    (∀ m ∈ historyMessages db cid l,
      m ∈ db.messages.filter (fun m0 => m0.conversation_id == cid)) ∧
    (∀ x ∈ historyMessages db cid l, ∀ y ∈ (conversationMessagesDesc db cid).drop l,
      y.created_at ≤ x.created_at) ∧
    (db.messages.filter (fun m => m.conversation_id == cid) = [] →
      get_conversation_history db cid (some l) = []) := by
  have hl : (l == 0) = false := by
    simp only [beq_eq_false_iff_ne]
    omega
  refine ⟨?_, ?_, ?_, ?_, ?_, ?_⟩
  · simp [get_conversation_history, historyMessages, hl]
  · simp only [historyMessages, List.length_reverse, List.length_take,
      conversationMessagesDesc, List.length_mergeSort]
    omega
  · rw [historyMessages, List.pairwise_reverse]
    exact List.Pairwise.sublist (List.take_sublist _ _) (conversationMessagesDesc_sorted db cid)
  · intro m hm
    exact (conversationMessagesDesc_perm db cid).subset
      (List.take_subset _ _ (by simpa [historyMessages, List.mem_reverse] using hm))
  · intro x hx y hy
    have hp := conversationMessagesDesc_sorted db cid
    rw [← List.take_append_drop l (conversationMessagesDesc db cid)] at hp
    exact (List.pairwise_append.mp hp).2.2 x
      (by simpa [historyMessages, List.mem_reverse] using hx) y hy
  · intro hnil
    simp [get_conversation_history, conversationMessagesDesc, hnil, hl]

/-- C2 witness: on the sample conversation (3 messages) with limit 2, the
history is the image of the two most recent messages in chronological
order, of length `min 3 2`. -/
theorem get_conversation_history_window_spec_witness :
    (get_conversation_history sampleDB 1 (some 2) =
      (historyMessages sampleDB 1 2).map (fun m => (m.role, m.content))) ∧
    ((historyMessages sampleDB 1 2).length =
      min (sampleDB.messages.filter (fun m => m.conversation_id == 1)).length 2) :=
  ⟨(get_conversation_history_window_spec sampleDB 1 2 (by decide)).1,
   (get_conversation_history_window_spec sampleDB 1 2 (by decide)).2.1⟩

/-- C1: a successful `send_message` (Validate passes) appends exactly two new
Message records — the user message first, then the assistant message — and
rewrites the conversation's `updated_at` exactly once, for every completion
outcome (unconfigured, erroring, or succeeding client); when Validate fails
the call returns NotFound with the database untouched, so no partial write
is ever exposed. -/
theorem send_message_exactly_two_writes (claude_client : Option ClaudeClient) (db : DB)
    (cid : Nat) (content : String) (u : User) :
    (findOwnedConversation db cid u = none →
      send_message claude_client db cid content u = (.error conversationNotFound, db)) ∧
    (∀ c, findOwnedConversation db cid u = some c →
      ∃ um am,
        (send_message claude_client db cid content u).2.messages = db.messages ++ [um, am] ∧
        um.role = "user" ∧ um.content = content ∧ um.conversation_id = cid ∧
        am.role = "assistant" ∧ am.conversation_id = cid ∧
        um.created_at < am.created_at ∧
        (send_message claude_client db cid content u).2.conversations =
          db.conversations.map
            (fun c0 => if c0.id == cid then { c0 with updated_at := db.clock + 2 } else c0) ∧
        ∃ r, (send_message claude_client db cid content u).1 = .ok r) := by
  refine ⟨send_message_error_unfold claude_client db cid content u, ?_⟩
  intro c h
  rw [send_message_ok_unfold claude_client db cid content u c h]
  exact ⟨_, _, rfl, rfl, rfl, rfl, rfl, rfl, Nat.lt_succ_self _, rfl, _, rfl⟩

/-- C1 witness: on the sample conversation in demo mode, the store grows by
exactly the two new messages. -/
theorem send_message_exactly_two_writes_witness :
    (send_message none sampleDB 1 "hi" sampleUser).2.messages.length =
      sampleDB.messages.length + 2 := by
  obtain ⟨um, am, hmsg, -, -, -, -, -, -, -, -⟩ :=
    (send_message_exactly_two_writes none sampleDB 1 "hi" sampleUser).2 sampleConversation
      (by decide)
  simp [hmsg]

/-- C4: each caller-facing conversation operation (fetch, delete, send
message) fails exactly when no conversation with the given id is owned by
the caller, and then with one uniform 404 "Conversation not found" error —
a nonexistent id and someone else's id are indistinguishable. -/
theorem conversation_access_uniform_not_found (db : DB) (cid : Nat) (u : User)
    (claude_client : Option ClaudeClient) (content : String) :
    (findOwnedConversation db cid u = none ↔
      ¬ ∃ c ∈ db.conversations, c.id = cid ∧ c.user_id = u.id) ∧
    (findOwnedConversation db cid u = none →
      get_conversation db cid u = .error conversationNotFound ∧
      delete_conversation db cid u = (.error conversationNotFound, db) ∧
      send_message claude_client db cid content u = (.error conversationNotFound, db)) ∧
    (∀ c, findOwnedConversation db cid u = some c →
      (∃ d, get_conversation db cid u = .ok d) ∧
      (∃ x, (delete_conversation db cid u).1 = .ok x) ∧
      (∃ r, (send_message claude_client db cid content u).1 = .ok r)) ∧
    conversationNotFound =
      { status_code := HTTP_404_NOT_FOUND, detail := "Conversation not found" } := by
  refine ⟨?_, ?_, ?_, rfl⟩
  · simp [findOwnedConversation, List.head?_eq_none_iff, List.filter_eq_nil_iff]
  · intro h
    exact ⟨by simp [get_conversation, h], by simp [delete_conversation, h],
      send_message_error_unfold claude_client db cid content u h⟩
  · intro c h
    have hget : ∃ d, get_conversation db cid u = .ok d := by
      simp only [get_conversation, h]
      exact ⟨_, rfl⟩
    have hdel : ∃ x, (delete_conversation db cid u).1 = .ok x := by
      simp [delete_conversation, h]
    refine ⟨hget, hdel, ?_⟩
    rw [send_message_ok_unfold claude_client db cid content u c h]
    exact ⟨_, rfl⟩

/-- C4 witness: on a nonexistent conversation id, all three operations fail
with the uniform NotFound error and an unchanged store. -/
theorem conversation_access_uniform_not_found_witness :
    get_conversation sampleDB 2 sampleUser = .error conversationNotFound ∧
    delete_conversation sampleDB 2 sampleUser = (.error conversationNotFound, sampleDB) ∧
    send_message none sampleDB 2 "hi" sampleUser = (.error conversationNotFound, sampleDB) :=
  (conversation_access_uniform_not_found sampleDB 2 sampleUser none "hi").2.1 (by decide)

/-- C5: for a configured client, the messages argument handed to the
completion service is the history fetched from the pre-persistence store
(prior turns only) with the new user message appended explicitly, exactly
once, as the final turn — never re-read from storage. -/
theorem completion_input_prior_history_plus_new (client : ClaudeClient) (db : DB) (cid : Nat)
    (content : String) (u : User) (c : Conversation)
    (h : findOwnedConversation db cid u = some c) :
    ∃ r, (send_message (some client) db cid content u).1 = .ok r ∧
      r.assistant_message.content =
        (match client.create
            (build_system_prompt u ((db.profiles.filter (fun p => p.user_id == u.id)).head?))
            (get_conversation_history db cid none ++ [("user", content)]) with
         | .success t => t
         | .error e => "I apologize, but I encountered an error: " ++ e ++ ". Please try again.") := by
  rw [send_message_ok_unfold (some client) db cid content u c h]
  exact ⟨_, rfl, rfl⟩

/-- C5 witness: with an always-erroring configured client on the sample
conversation, the stored assistant reply is determined by the pre-state
history plus the new message as final turn. -/
theorem completion_input_prior_history_plus_new_witness :
    ∃ r, (send_message (some errClient) sampleDB 1 "hi" sampleUser).1 = .ok r ∧
      r.assistant_message.content =
        (match errClient.create
            (build_system_prompt sampleUser
              ((sampleDB.profiles.filter (fun p => p.user_id == sampleUser.id)).head?))
            (get_conversation_history sampleDB 1 none ++ [("user", "hi")]) with
         | .success t => t
         | .error e => "I apologize, but I encountered an error: " ++ e ++ ". Please try again.") :=
  completion_input_prior_history_plus_new errClient sampleDB 1 "hi" sampleUser
    sampleConversation (by decide)

/-- C6 counterexample: calling `quick_message` WITH a supplied conversation
id, namely `0`, on a store with no conversations still creates a new
conversation whose title is derived from the message content ("hi") —
because `if conversation_id:` treats `0` like a missing id — contradicting
the claim that no title is derived when a conversation id is supplied. -/
theorem quick_message_zero_id_derives_title :
    (quick_message none emptyConvDB (some 0) "hi" sampleUser).2.conversations.map
      Conversation.title = [some "hi"] := by
  rfl

/-- C6 amended: a missing conversation id — or the falsy id `0` — makes
`quick_message` create a new conversation titled by the content when it has
at most 50 characters and by the first 50 characters plus the "..."
truncation marker when longer, then delegate to the `send_message` pipeline
on the new conversation; a supplied nonzero id reuses the existing
conversation with no title derived, and `send_message` itself never changes
any stored title. -/
theorem quick_message_title_spec (claude_client : Option ClaudeClient) (db : DB)
    (content : String) (u : User) (conversation_id : Option Nat) :
    (pyTruthyNat conversation_id = false →
      quick_message claude_client db conversation_id content u =
        send_message claude_client
          { db with
             conversations := db.conversations ++
               [{ id := db.nextConversationId, user_id := u.id,
                  title := some (if content.length > 50 then content.take 50 ++ "..." else content),
                  created_at := db.clock, updated_at := db.clock + 1 }],
             nextConversationId := db.nextConversationId + 1,
             clock := db.clock + 2 }
          db.nextConversationId content u) ∧
    (content.length ≤ 50 →
      (if content.length > 50 then content.take 50 ++ "..." else content) = content) ∧
    (content.length > 50 →
      (if content.length > 50 then content.take 50 ++ "..." else content) =
        content.take 50 ++ "...") ∧
    (∀ cid, conversation_id = some cid → cid ≠ 0 →
      (findOwnedConversation db cid u = none →
        quick_message claude_client db conversation_id content u =
          (.error conversationNotFound, db)) ∧
      (∀ c, findOwnedConversation db cid u = some c →
        quick_message claude_client db conversation_id content u =
          send_message claude_client db c.id content u)) ∧
    (∀ db0 cid0, (send_message claude_client db0 cid0 content u).2.conversations.map
        Conversation.title = db0.conversations.map Conversation.title) := by
  refine ⟨?_, ?_, ?_, ?_, ?_⟩
  · intro h
    simp [quick_message, h, DB.utcnow]
  · intro h
    rw [if_neg (by omega)]
  · intro h
    rw [if_pos h]
  · rintro cid rfl hcid
    have ht : pyTruthyNat (some cid) = true := by
      simp [pyTruthyNat, hcid]
    constructor
    · intro hnone
      simp [quick_message, ht, hnone]
    · intro c hc
      simp [quick_message, ht, hc]
  · intro db0 cid0
    cases hfind : findOwnedConversation db0 cid0 u with
    | none =>
      rw [send_message_error_unfold claude_client db0 cid0 content u hfind]
    | some c =>
      rw [send_message_ok_unfold claude_client db0 cid0 content u c hfind]
      rw [List.map_map]
      congr 1
      funext c0
      by_cases h0 : (c0.id == cid0) = true <;> simp [Function.comp, h0]

/-- C6 witness: a 60-character content with no conversation id creates a
conversation titled by the first 50 characters plus the truncation marker
and delegates to the pipeline. -/
theorem quick_message_title_spec_witness :
    (quick_message none emptyConvDB none longContent sampleUser =
      send_message none
        { emptyConvDB with
           conversations := emptyConvDB.conversations ++
             [{ id := emptyConvDB.nextConversationId, user_id := sampleUser.id,
                title := some (if longContent.length > 50 then longContent.take 50 ++ "..." else longContent),
                created_at := emptyConvDB.clock, updated_at := emptyConvDB.clock + 1 }],
           nextConversationId := emptyConvDB.nextConversationId + 1,
           clock := emptyConvDB.clock + 2 }
        emptyConvDB.nextConversationId longContent sampleUser) ∧
    ((if longContent.length > 50 then longContent.take 50 ++ "..." else longContent) =
      longContent.take 50 ++ "...") :=
  ⟨(quick_message_title_spec none emptyConvDB longContent sampleUser none).1 rfl,
   (quick_message_title_spec none emptyConvDB longContent sampleUser none).2.2.1 (by decide)⟩
